import Mathlib

/-!
Verification of the scan-path pipeline of the `duckdb-oracle` connector.

The C++ sources are shallowly embedded: each Lean definition below mirrors one
function of the repository (the source file and function are named in its doc
comment).  Machine integers are modelled as `Int`/`Nat` with explicit wrapping
where the C++ performs a narrowing conversion; `std::string` is modelled as
`String`; `std::vector` as `List`.  IEEE floating-point payloads are carried
symbolically (as raw bit patterns) because no verified claim inspects float
arithmetic; every operation the C++ performs on them is recorded verbatim in
the result constructors.  Environment dependence is explicit: the value
conversion's `mktime` call consults the process time zone, so the embedding
threads a `tzOffset` function through `ToDuckDBValue` (see `mktimeModel`).
-/

namespace DuckdbOracle

/-- Host logical types (the subset of DuckDB `LogicalType` the connector uses).
`decimal` records the two arguments the connector passes to
`LogicalType::DECIMAL(width, scale)`. -/
inductive LogicalType where
  | boolean
  | tinyint
  | smallint
  | integer
  | bigint
  | hugeint
  | ubigint
  | float
  | double
  | decimal (width : Int) (scale : Int)
  | varchar
  | blob
  | date
  | timestamp
  | timestampTZ
  | interval
  deriving DecidableEq, Repr

/-- `OracleColumnInfo` (src/include/oracle_type_mapping.hpp:12-22): one column
descriptor.  `precision`/`scale`/`char_length` are `int32_t` in the source. -/
structure OracleColumnInfo where
  name : String
  oracle_type_name : String
  precision : Int
  scale : Int
  char_length : Int
  nullable : Bool
  deriving DecidableEq, Repr

/-- `OracleTypeMapping::ToDuckDBType` (src/oracle_type_mapping.cpp:95-150):
Oracle column descriptor → host logical type. -/
def ToDuckDBType (col : OracleColumnInfo) : LogicalType :=
  let type := col.oracle_type_name
  if type = "NUMBER" then
    if col.precision = 0 ∧ col.scale = -127 then
      LogicalType.double
    else if (col.scale = 0 ∨ col.scale = -127) ∧ col.precision ≤ 4 then
      LogicalType.smallint
    else if (col.scale = 0 ∨ col.scale = -127) ∧ col.precision ≤ 9 then
      LogicalType.integer
    else if (col.scale = 0 ∨ col.scale = -127) ∧ col.precision ≤ 18 then
      LogicalType.bigint
    else if (col.scale = 0 ∨ col.scale = -127) ∧ col.precision ≤ 38 then
      LogicalType.hugeint
    else if col.precision > 0 ∧ col.scale ≥ 0 then
      LogicalType.decimal col.precision col.scale
    else
      LogicalType.double
  else if type = "VARCHAR2" ∨ type = "NVARCHAR2" ∨ type = "CHAR" ∨
          type = "NCHAR" ∨ type = "ROWID" ∨ type = "CLOB" ∨ type = "NCLOB" then
    LogicalType.varchar
  else if type = "DATE" ∨ type = "TIMESTAMP" ∨
          type = "TIMESTAMP WITH LOCAL TIME ZONE" then
    LogicalType.timestamp
  else if type = "TIMESTAMP WITH TIME ZONE" then
    LogicalType.timestampTZ
  else if type = "BLOB" ∨ type = "RAW" then
    LogicalType.blob
  else if type = "BINARY_FLOAT" then
    LogicalType.float
  else if type = "BINARY_DOUBLE" then
    LogicalType.double
  else if type = "INTERVAL YEAR TO MONTH" ∨ type = "INTERVAL DAY TO SECOND" then
    LogicalType.interval
  else
    LogicalType.varchar

/-- The NUMBER row of the specification's descriptor→type table, written as the
spec phrases it: DOUBLE when precision and scale are both unset; integer tiers
when the scale is 0 or unset; DECIMAL when a fractional scale is declared;
DOUBLE in every remaining case. -/
def specNumberType (p s : Int) : LogicalType :=
  if p = 0 ∧ s = -127 then LogicalType.double
  else if s = 0 ∨ s = -127 then
    if p ≤ 4 then LogicalType.smallint
    else if p ≤ 9 then LogicalType.integer
    else if p ≤ 18 then LogicalType.bigint
    else if p ≤ 38 then LogicalType.hugeint
    else if p > 0 ∧ s ≥ 0 then LogicalType.decimal p s
    else LogicalType.double
  else if p > 0 ∧ s ≥ 0 then LogicalType.decimal p s
  else LogicalType.double

/-- C2: `ToDuckDBType` is total (it is a Lean function) and deterministic, and
on every column whose `oracle_type_name` is `NUMBER` it implements the
specification's NUMBER table: DOUBLE for (precision 0, scale −127); integer
tiers SMALLINT/INTEGER/BIGINT/HUGEINT for scale 0 or −127 with precision
≤ 4/9/18/38; DECIMAL(precision, scale) for precision > 0 and scale ≥ 0; DOUBLE
in every remaining case.  The concrete conjuncts are scenario S5's NUMBER
rows. -/
theorem C2_ToDuckDBType_number :
    (∀ (n : String) (p s cl : Int) (nb : Bool),
      ToDuckDBType ⟨n, "NUMBER", p, s, cl, nb⟩ = specNumberType p s) ∧
    ToDuckDBType ⟨"A", "NUMBER", 38, 0, 0, true⟩ = LogicalType.hugeint ∧
    ToDuckDBType ⟨"B", "NUMBER", 0, -127, 0, true⟩ = LogicalType.double ∧
    ToDuckDBType ⟨"C", "NUMBER", 10, 2, 0, true⟩ = LogicalType.decimal 10 2 := by
  refine ⟨?_, by rfl, by rfl, by rfl⟩
  intro n p s cl nb
  simp only [ToDuckDBType, specNumberType, if_true]
  split_ifs <;> first | rfl | omega

/-- `OracleUtils::QuoteIdentifier` (src/oracle_utils.cpp:17-19). -/
def QuoteIdentifier (name : String) : String := "\"" ++ name ++ "\""

/-- DuckDB's row-id projection sentinel `COLUMN_IDENTIFIER_ROW_ID`
(`(column_t)-1`, i.e. `2^64 - 1` as an unsigned 64-bit value). -/
def COLUMN_IDENTIFIER_ROW_ID : Nat := 2 ^ 64 - 1

/-- DuckDB's `DConstants::INVALID_INDEX` (`(idx_t)-1`), the limit-unset
sentinel of the bind data. -/
def INVALID_INDEX : Nat := 2 ^ 64 - 1

/-- `OracleScanBindData` (src/include/oracle_scan.hpp:13-38), without the pool
handle (which carries no data the query builder reads). -/
structure OracleScanBindData where
  schema : String
  table : String
  all_columns : List OracleColumnInfo
  all_types : List LogicalType
  filters : List String
  column_ids : List Nat
  limit : Nat
  offset : Nat
  oracle_major_version : Int
  deriving DecidableEq, Repr

/-- Projection loop of `OracleScanBindData::BuildSelectQuery`
(src/oracle_scan.cpp:39-50): streams each projected id into the accumulator,
prefixing `", "` except before the first emitted item; the returned flag is the
loop's final `first` value. -/
def selectListAux (cols : List OracleColumnInfo) :
    List Nat → Bool → String → String × Bool
  | [], first, acc => (acc, first)
  | cid :: rest, first, acc =>
    if cid = COLUMN_IDENTIFIER_ROW_ID then
      selectListAux cols rest false ((acc ++ if first then "" else ", ") ++ "ROWID")
    else if h : cid < cols.length then
      selectListAux cols rest false
        ((acc ++ if first then "" else ", ") ++ QuoteIdentifier (cols.get ⟨cid, h⟩).name)
    else
      selectListAux cols rest first acc

/-- SELECT-list construction of `BuildSelectQuery` (src/oracle_scan.cpp:36-52):
`*` for an empty projection, the loop output otherwise, and `*` again when the
loop emitted nothing. -/
def buildSelectList (cols : List OracleColumnInfo) (ids : List Nat) : String :=
  if ids.isEmpty then "*"
  else
    let r := selectListAux cols ids true ""
    if r.2 then "*" else r.1

/-- WHERE-clause loop of `BuildSelectQuery` (src/oracle_scan.cpp:60-63):
indexed loop inserting `" AND "` before every fragment except the first. -/
def whereClauseAux : List String → Nat → String → String
  | [], _, acc => acc
  | f :: rest, i, acc =>
    whereClauseAux rest (i + 1) ((acc ++ if i > 0 then " AND " else "") ++ f)

/-- `OracleScanBindData::BuildSelectQuery` (src/oracle_scan.cpp:31-86). -/
def BuildSelectQuery (bd : OracleScanBindData) : String :=
  let selectPart := "SELECT " ++ buildSelectList bd.all_columns bd.column_ids
  let fromPart := selectPart ++ " FROM " ++ QuoteIdentifier bd.schema ++ "." ++
    QuoteIdentifier bd.table
  let withWhere :=
    if bd.filters.isEmpty then fromPart
    else fromPart ++ " WHERE " ++ whereClauseAux bd.filters 0 ""
  if bd.limit ≠ INVALID_INDEX then
    if bd.oracle_major_version ≥ 12 then
      (if bd.offset > 0 then
        withWhere ++ " OFFSET " ++ toString bd.offset ++ " ROWS"
      else withWhere) ++ " FETCH FIRST " ++ toString bd.limit ++ " ROWS ONLY"
    else
      "SELECT * FROM (SELECT ROWNUM rn__, t__.* FROM (" ++ withWhere ++
        ") t__ WHERE ROWNUM <= " ++ toString (bd.offset + bd.limit) ++
        ") WHERE rn__ > " ++ toString bd.offset
  else withWhere

/-- Separator-prefixed tail rendering: `joinPre sep [a, b] = sep ++ a ++ sep ++ b`. -/
def joinPre (sep : String) : List String → String
  | [] => ""
  | s :: rest => sep ++ s ++ joinPre sep rest

/-- Separator-joined rendering of a non-empty item list (empty list renders
empty). -/
def joinSep (sep : String) : List String → String
  | [] => ""
  | i :: rest => i ++ joinPre sep rest

/-- The specification's SELECT-list items (spec §4.3 step 1): in projection
order, the row-id sentinel becomes `ROWID`, a valid index its double-quoted
column name, and out-of-range ids are skipped. -/
def specSelectItems (cols : List OracleColumnInfo) (ids : List Nat) : List String :=
  ids.filterMap fun cid =>
    if cid = COLUMN_IDENTIFIER_ROW_ID then some "ROWID"
    else (cols[cid]?).map fun c => QuoteIdentifier c.name

/-- The SELECT statement exactly as spec §4.3 prescribes it, built from joined
item lists rather than the source's streaming loops. -/
def specSelectQuery (bd : OracleScanBindData) : String :=
  let items := specSelectItems bd.all_columns bd.column_ids
  let core := "SELECT " ++ (if items.isEmpty then "*" else joinSep ", " items) ++
    " FROM " ++ QuoteIdentifier bd.schema ++ "." ++ QuoteIdentifier bd.table ++
    (if bd.filters.isEmpty then "" else " WHERE " ++ joinSep " AND " bd.filters)
  if bd.limit = INVALID_INDEX then core
  else if bd.oracle_major_version ≥ 12 then
    core ++ (if bd.offset > 0 then " OFFSET " ++ toString bd.offset ++ " ROWS" else "") ++
      " FETCH FIRST " ++ toString bd.limit ++ " ROWS ONLY"
  else
    "SELECT * FROM (SELECT ROWNUM rn__, t__.* FROM (" ++ core ++
      ") t__ WHERE ROWNUM <= " ++ toString (bd.offset + bd.limit) ++
      ") WHERE rn__ > " ++ toString bd.offset

theorem selectListAux_false (cols : List OracleColumnInfo) (ids : List Nat) :
    ∀ acc, selectListAux cols ids false acc =
      (acc ++ joinPre ", " (specSelectItems cols ids), false) := by
  induction ids with
  | nil => intro acc; simp [selectListAux, specSelectItems, joinPre]
  | cons cid rest ih =>
    intro acc
    by_cases hrow : cid = COLUMN_IDENTIFIER_ROW_ID
    · simp only [selectListAux, if_pos hrow, if_neg, ih, specSelectItems,
        List.filterMap_cons, hrow, if_true, ite_true, joinPre]
      rw [← specSelectItems]
      simp [String.append_assoc]
    · by_cases hlt : cid < cols.length
      · simp only [selectListAux, if_neg hrow, dif_pos hlt, ih, specSelectItems,
          List.filterMap_cons, if_neg hrow, joinPre]
        rw [← specSelectItems]
        simp [List.getElem?_eq_getElem hlt, joinPre, String.append_assoc]
      · simp only [selectListAux, if_neg hrow, dif_neg hlt, ih, specSelectItems,
          List.filterMap_cons, if_neg hrow]
        rw [← specSelectItems]
        simp [List.getElem?_eq_none (Nat.le_of_not_lt hlt)]

theorem selectListAux_true (cols : List OracleColumnInfo) (ids : List Nat) :
    ∀ acc, selectListAux cols ids true acc =
      match specSelectItems cols ids with
      | [] => (acc, true)
      | i :: rest => (acc ++ (i ++ joinPre ", " rest), false) := by
  induction ids with
  | nil => intro acc; simp [selectListAux, specSelectItems]
  | cons cid rest ih =>
    intro acc
    by_cases hrow : cid = COLUMN_IDENTIFIER_ROW_ID
    · simp only [selectListAux, if_pos hrow, selectListAux_false, specSelectItems,
        List.filterMap_cons, hrow, ite_true]
      rw [← specSelectItems]
      simp [String.append_assoc]
    · by_cases hlt : cid < cols.length
      · simp only [selectListAux, if_neg hrow, dif_pos hlt, selectListAux_false,
          specSelectItems, List.filterMap_cons, if_neg hrow]
        rw [← specSelectItems]
        simp [List.getElem?_eq_getElem hlt, String.append_assoc]
      · simp only [selectListAux, if_neg hrow, dif_neg hlt, ih, specSelectItems,
          List.filterMap_cons, if_neg hrow]
        rw [← specSelectItems]
        simp [List.getElem?_eq_none (Nat.le_of_not_lt hlt)]

theorem buildSelectList_spec (cols : List OracleColumnInfo) (ids : List Nat) :
    buildSelectList cols ids =
      if (specSelectItems cols ids).isEmpty then "*"
      else joinSep ", " (specSelectItems cols ids) := by
  unfold buildSelectList
  by_cases hids : ids.isEmpty
  · have : specSelectItems cols ids = [] := by
      cases ids with
      | nil => rfl
      | cons a l => simp at hids
    simp [hids, this]
  · simp only [if_neg hids, selectListAux_true]
    cases h : specSelectItems cols ids with
    | nil => simp
    | cons i rest => simp [joinSep]

theorem whereClauseAux_pos (fs : List String) :
    ∀ acc i, 0 < i → whereClauseAux fs i acc = acc ++ joinPre " AND " fs := by
  induction fs with
  | nil => intro acc i _; simp [whereClauseAux, joinPre]
  | cons f rest ih =>
    intro acc i hi
    simp only [whereClauseAux, if_pos hi, joinPre]
    rw [ih _ (i + 1) (Nat.succ_pos i)]
    simp [String.append_assoc]

theorem whereClauseAux_zero (fs : List String) :
    whereClauseAux fs 0 "" = joinSep " AND " fs := by
  cases fs with
  | nil => rfl
  | cons f rest =>
    simp only [whereClauseAux, joinSep]
    rw [whereClauseAux_pos rest _ 1 Nat.one_pos]
    simp

/-- Scenario S1's bind data: table `HR.EMPLOYEES` with columns
`EMP_ID NUMBER(9,0)` and `NAME VARCHAR2(50)`, projection `[0, 1]`, limit 10,
offset 0, server major version 12, no filters. -/
def s1BindData : OracleScanBindData :=
  ⟨"HR", "EMPLOYEES",
   [⟨"EMP_ID", "NUMBER", 9, 0, 0, true⟩, ⟨"NAME", "VARCHAR2", 0, -127, 50, true⟩],
   [], [], [0, 1], 10, 0, 12⟩

/-- Scenario S4's bind data: as S1 but server major version 11, limit 5,
offset 10. -/
def s4BindData : OracleScanBindData :=
  ⟨"HR", "EMPLOYEES",
   [⟨"EMP_ID", "NUMBER", 9, 0, 0, true⟩, ⟨"NAME", "VARCHAR2", 0, -127, 50, true⟩],
   [], [], [0, 1], 5, 10, 11⟩

/-- C1: `BuildSelectQuery` emits exactly the SQL of the specification's builder
algorithm (select list from the projection with the row-id sentinel and
out-of-range skipping, `FROM` with quoted identifiers, `WHERE` joined with
`AND`, and the version-split limit/offset forms), and scenarios S1 and S4
produce the prescribed statements. -/
theorem C1_BuildSelectQuery :
    (∀ bd : OracleScanBindData, BuildSelectQuery bd = specSelectQuery bd) ∧
    BuildSelectQuery s1BindData =
      "SELECT \"EMP_ID\", \"NAME\" FROM \"HR\".\"EMPLOYEES\" FETCH FIRST 10 ROWS ONLY" ∧
    BuildSelectQuery s4BindData =
      "SELECT * FROM (SELECT ROWNUM rn__, t__.* FROM (SELECT \"EMP_ID\", \"NAME\" FROM \"HR\".\"EMPLOYEES\") t__ WHERE ROWNUM <= 15) WHERE rn__ > 10" := by
  refine ⟨?_, by decide, by decide⟩
  intro bd
  simp only [BuildSelectQuery, specSelectQuery, buildSelectList_spec, whereClauseAux_zero]
  by_cases hlim : bd.limit = INVALID_INDEX <;>
    by_cases hver : bd.oracle_major_version ≥ 12 <;>
      by_cases hf : bd.filters.isEmpty <;>
        by_cases hoff : 0 < bd.offset <;>
          simp [hlim, hver, hf, hoff, String.append_assoc, String.append_empty]

/-- `OracleScanBindData::Equals` (src/oracle_scan.cpp:26-29): compares only the
schema and table fields of the two bind data. -/
def bindDataEquals (a b : OracleScanBindData) : Bool :=
  a.schema == b.schema && a.table == b.table

/-- C10: `Equals` holds iff schema and table coincide; in particular the S1 and
S4 bind data, which differ in limit, offset and server version (and generally
any two bind data differing only in filters, column ids, limit, offset or
version), are reported equal while being distinct values. -/
theorem C10_bindDataEquals :
    (∀ a b : OracleScanBindData,
      bindDataEquals a b = true ↔ a.schema = b.schema ∧ a.table = b.table) ∧
    bindDataEquals s1BindData s4BindData = true ∧
    s1BindData ≠ s4BindData ∧
    bindDataEquals
      ⟨"S", "T", [], [], ["(1 = 1)"], [0], 3, 1, 12⟩
      ⟨"S", "T", [], [], [], [], INVALID_INDEX, 0, 11⟩ = true := by
  refine ⟨?_, by decide, by decide, by decide⟩
  intro a b
  simp [bindDataEquals]

/-- Comparison operator classes of `BoundComparisonExpression` reaching
`ComparisonToSQL` (src/oracle_optimizer.cpp:91-99); `otherCompare` stands for
every class the switch's default rejects. -/
inductive ComparisonType where
  | equal | notEqual | lessThan | greaterThan
  | lessThanOrEqualTo | greaterThanOrEqualTo | otherCompare
  deriving DecidableEq, Repr

/-- Conjunction classes reaching `ConjunctionToSQL`
(src/oracle_optimizer.cpp:110-117). -/
inductive ConjunctionType where
  | conjAnd | conjOr | otherConj
  deriving DecidableEq, Repr

/-- A host constant value as `ConstantToSQL` observes it
(src/oracle_optimizer.cpp:15-68): nullness first, then the value under its
logical type.  Date and timestamp constants are carried as the components
`Date::Convert`/`Time::Convert` decompose them into; float and double
constants carry the text `std::to_string` renders them to (no claim inspects
IEEE formatting). -/
inductive ConstValue where
  | nullV
  | boolean (b : Bool)
  | int32 (v : Int)
  | int64 (v : Int)
  | floatText (s : String)
  | doubleText (s : String)
  | varcharV (s : String)
  | dateV (y m d : Int)
  | timestampV (y mo d h mi sec : Int)
  | otherV
  deriving DecidableEq, Repr

/-- The single-quote character (ASCII 39). -/
def squoteChar : Char := Char.ofNat 39

/-- The single-quote string. -/
def squote : String := "\x27"

/-- Escape loop of the VARCHAR case of `ConstantToSQL`
(src/oracle_optimizer.cpp:34-41): every embedded single quote is doubled; the
accumulator starts as the opening quote. -/
def escapeQuotesAux : List Char → String → String
  | [], acc => acc
  | c :: rest, acc =>
    escapeQuotesAux rest ((acc ++ if c = squoteChar then squote else "") ++ String.singleton c)

/-- `snprintf` zero-padded decimal rendering (`%0Nd`): total width `width`
including a leading minus sign. -/
def padInt (width : Nat) (v : Int) : String :=
  let digits := v.natAbs.repr
  if v < 0 then
    "-" ++ String.mk (List.replicate (width - 1 - digits.length) (Char.ofNat 48)) ++ digits
  else
    String.mk (List.replicate (width - digits.length) (Char.ofNat 48)) ++ digits

/-- `OracleFilterPushdown::ConstantToSQL` (src/oracle_optimizer.cpp:15-68). -/
def ConstantToSQL : ConstValue → String
  | .nullV => "NULL"
  | .boolean b => if b then "1" else "0"
  | .int32 v => toString v
  | .int64 v => toString v
  | .floatText s => s
  | .doubleText s => s
  | .varcharV s => escapeQuotesAux s.data squote ++ squote
  | .dateV y m d =>
    "DATE " ++ squote ++ padInt 4 y ++ "-" ++ padInt 2 m ++ "-" ++ padInt 2 d ++ squote
  | .timestampV y mo d h mi sec =>
    "TIMESTAMP " ++ squote ++ padInt 4 y ++ "-" ++ padInt 2 mo ++ "-" ++ padInt 2 d ++
      " " ++ padInt 2 h ++ ":" ++ padInt 2 mi ++ ":" ++ padInt 2 sec ++ squote
  | .otherV => ""

/-- `OracleFilterPushdown::ColumnToSQL` (src/oracle_optimizer.cpp:73-78):
out-of-range column bindings are not pushable. -/
def ColumnToSQL (names : List String) (colIdx : Nat) : String :=
  if h : colIdx < names.length then QuoteIdentifier (names.get ⟨colIdx, h⟩) else ""

/-- The comparison operator text of `ComparisonToSQL`
(src/oracle_optimizer.cpp:91-99). -/
def comparisonOp : ComparisonType → Option String
  | .equal => some " = "
  | .notEqual => some " <> "
  | .lessThan => some " < "
  | .greaterThan => some " > "
  | .lessThanOrEqualTo => some " <= "
  | .greaterThanOrEqualTo => some " >= "
  | .otherCompare => none

/-- The conjunction operator text of `ConjunctionToSQL`
(src/oracle_optimizer.cpp:110-117). -/
def conjunctionOp : ConjunctionType → Option String
  | .conjAnd => some " AND "
  | .conjOr => some " OR "
  | .otherConj => none

/-- Host filter-expression trees as the rewriter classifies them
(`ExpressionClass` switch, src/oracle_optimizer.cpp:170-183); `other` stands
for every class the default case rejects. -/
inductive Expr where
  | comparison (ty : ComparisonType) (left right : Expr)
  | conjunction (ty : ConjunctionType) (children : List Expr)
  | function (name : String) (children : List Expr)
  | constant (val : ConstValue)
  | columnRef (colIdx : Nat)
  | other

mutual

/-- `OracleFilterPushdown::ExpressionToSQL` (src/oracle_optimizer.cpp:166-184)
together with the per-class renderers it dispatches to; the empty string means
"not pushable". -/
def ExpressionToSQL (names : List String) : Expr → String
  | .comparison ty l r =>
    let lhs := ExpressionToSQL names l
    let rhs := ExpressionToSQL names r
    if lhs = "" ∨ rhs = "" then ""
    else
      match comparisonOp ty with
      | some op => "(" ++ lhs ++ op ++ rhs ++ ")"
      | none => ""
  | .conjunction ty children =>
    match conjunctionOp ty with
    | none => ""
    | some op =>
      match conjunctionParts names children with
      | none => ""
      | some parts => "(" ++ joinSep op parts ++ ")"
  | .function fn children =>
    match fn, children with
    | "isnull", [c] =>
      let child := ExpressionToSQL names c
      if child = "" then "" else "(" ++ child ++ " IS NULL)"
    | "isnotnull", [c] =>
      let child := ExpressionToSQL names c
      if child = "" then "" else "(" ++ child ++ " IS NOT NULL)"
    | "~~", [c1, c2] =>
      let col := ExpressionToSQL names c1
      let pat := ExpressionToSQL names c2
      if col = "" ∨ pat = "" then "" else "(" ++ col ++ " LIKE " ++ pat ++ ")"
    | _, _ => ""
  | .constant v => ConstantToSQL v
  | .columnRef idx => ColumnToSQL names idx
  | .other => ""

/-- Child loop of `ConjunctionToSQL` (src/oracle_optimizer.cpp:119-124):
`none` when any child is not pushable. -/
def conjunctionParts (names : List String) : List Expr → Option (List String)
  | [] => some []
  | c :: rest =>
    let part := ExpressionToSQL names c
    if part = "" then none
    else
      match conjunctionParts names rest with
      | none => none
      | some parts => some (part :: parts)

end

/-- Partition loop of `OracleFilterPushdown::PushdownFilters`
(src/oracle_optimizer.cpp:191-200): renderable filters go to the bind data
filter list, the rest to the residual `remaining` vector, both in input
order. -/
def pushdownAux (names : List String) :
    List Expr → List String → List Expr → List String × List Expr
  | [], bdf, rem => (bdf, rem)
  | f :: rest, bdf, rem =>
    let sql := ExpressionToSQL names f
    if sql = "" then pushdownAux names rest bdf (rem ++ [f])
    else pushdownAux names rest (bdf ++ [sql]) rem

/-- `OracleFilterPushdown::PushdownFilters` (src/oracle_optimizer.cpp:188-201):
returns the updated bind data and the residual filter list the input vector is
replaced with. -/
def PushdownFilters (bd : OracleScanBindData) (names : List String)
    (filters : List Expr) : OracleScanBindData × List Expr :=
  let r := pushdownAux names filters bd.filters []
  ({ bd with filters := r.1 }, r.2)

/-- The rendering of one filter when pushable, `none` when not. -/
def renderFilter (names : List String) (f : Expr) : Option String :=
  if ExpressionToSQL names f = "" then none else some (ExpressionToSQL names f)

theorem pushdownAux_spec (names : List String) (filters : List Expr) :
    ∀ bdf rem, pushdownAux names filters bdf rem =
      (bdf ++ filters.filterMap (renderFilter names),
       rem ++ filters.filter (fun f => ExpressionToSQL names f == "")) := by
  induction filters with
  | nil => intro bdf rem; simp [pushdownAux]
  | cons f rest ih =>
    intro bdf rem
    by_cases h : ExpressionToSQL names f = ""
    · simp [pushdownAux, h, ih, renderFilter]
    · simp [pushdownAux, h, ih, renderFilter]

theorem renderFilter_partition_length (names : List String) (filters : List Expr) :
    (filters.filterMap (renderFilter names)).length
      + (filters.filter (fun f => ExpressionToSQL names f == "")).length
      = filters.length := by
  induction filters with
  | nil => rfl
  | cons f rest ih =>
    by_cases h : ExpressionToSQL names f = "" <;>
      simp [renderFilter, h, List.filterMap_cons] <;> omega

/-- C4: `PushdownFilters` partitions its input: every filter with a non-empty
rendering is appended to the bind data filter list (as its rendered string, in
input order) and is removed from the residual; every filter rendering empty
stays in the residual in its original relative order; the two part sizes add
up to the input size, so no filter is duplicated or dropped. -/
theorem C4_PushdownFilters (bd : OracleScanBindData) (names : List String)
    (filters : List Expr) :
    (PushdownFilters bd names filters).1.filters =
      bd.filters ++ filters.filterMap (renderFilter names) ∧
    (PushdownFilters bd names filters).2 =
      filters.filter (fun f => ExpressionToSQL names f == "") ∧
    (filters.filterMap (renderFilter names)).length
      + (filters.filter (fun f => ExpressionToSQL names f == "")).length
      = filters.length := by
  refine ⟨?_, ?_, renderFilter_partition_length names filters⟩ <;>
    simp [PushdownFilters, pushdownAux_spec]

/-- ODPI-C native type tags (`dpiNativeTypeNum` in dpi.h). -/
def DPI_NATIVE_TYPE_INT64 : Nat := 3000

def DPI_NATIVE_TYPE_UINT64 : Nat := 3001

def DPI_NATIVE_TYPE_FLOAT : Nat := 3002

def DPI_NATIVE_TYPE_DOUBLE : Nat := 3003

def DPI_NATIVE_TYPE_BYTES : Nat := 3004

def DPI_NATIVE_TYPE_TIMESTAMP : Nat := 3005

def DPI_NATIVE_TYPE_INTERVAL_DS : Nat := 3006

def DPI_NATIVE_TYPE_INTERVAL_YM : Nat := 3007

def DPI_NATIVE_TYPE_LOB : Nat := 3008

def DPI_NATIVE_TYPE_BOOLEAN : Nat := 3011

/-- `dpiTimestamp`: the driver's decomposed timestamp.  `fsecond` is the
fractional second in nanoseconds; the tz offsets are signed. -/
structure DpiTimestamp where
  year : Int
  month : Int
  day : Int
  hour : Int
  minute : Int
  second : Int
  fsecond : Nat
  tzHourOffset : Int
  tzMinuteOffset : Int
  deriving DecidableEq, Repr

/-- `dpiIntervalYM`. -/
structure DpiIntervalYM where
  years : Int
  months : Int
  deriving DecidableEq, Repr

/-- `dpiIntervalDS`; `fseconds` is in nanoseconds. -/
structure DpiIntervalDS where
  days : Int
  hours : Int
  minutes : Int
  seconds : Int
  fseconds : Nat
  deriving DecidableEq, Repr

/-- A driver LOB handle, modelled by the byte content it yields:
`dpiLob_getSize` is its length and `dpiLob_readBytes(1, size)` its content. -/
structure DpiLob where
  contents : String
  deriving DecidableEq, Repr

/-- The `dpiData` value union, modelled as a product (memory holds every
interpretation at once).  IEEE float/double members are symbolic bit
patterns: the connector never computes with them in any verified claim, and
every operation it performs on them is recorded in the result constructor. -/
structure DpiDataValue where
  asDouble : Nat
  asFloat : Nat
  asInt64 : Int
  asUint64 : Nat
  asBytes : String
  asTimestamp : DpiTimestamp
  asIntervalYM : DpiIntervalYM
  asIntervalDS : DpiIntervalDS
  asBoolean : Int
  asLOB : DpiLob
  deriving DecidableEq, Repr

/-- `dpiData`: null flag plus value union. -/
structure DpiData where
  isNull : Bool
  value : DpiDataValue
  deriving DecidableEq, Repr

/-- An all-zero `dpiData` value payload. -/
def dpiZero : DpiDataValue :=
  ⟨0, 0, 0, 0, "", ⟨0, 0, 0, 0, 0, 0, 0, 0, 0⟩, ⟨0, 0⟩, ⟨0, 0, 0, 0, 0⟩, 0, ⟨""⟩⟩

/-- C++ narrowing cast to `int32_t` (two's-complement wraparound). -/
def toInt32 (v : Int) : Int := (v + 2147483648) % 4294967296 - 2147483648

/-- C++ narrowing cast to `int16_t` (two's-complement wraparound). -/
def toInt16 (v : Int) : Int := (v + 32768) % 65536 - 32768

/-- Days from 1970-01-01 for a proleptic-Gregorian civil date. -/
def daysFromCivil (y m d : Int) : Int :=
  let y2 := if m ≤ 2 then y - 1 else y
  let era := (if 0 ≤ y2 then y2 else y2 - 399) / 400
  let yoe := y2 - era * 400
  let mp := (m + 9) % 12
  let doy := (153 * mp + 2) / 5 + d - 1
  let doe := yoe * 365 + yoe / 4 - yoe / 100 + doy
  era * 146097 + doe - 719468

/-- The civil-seconds value of a decomposed proleptic-Gregorian datetime:
seconds since 1970-01-01 00:00:00 of the same wall-clock reading.  This is the
time-zone-independent quantity; it equals seconds-since-epoch only when the
components are interpreted as UTC. -/
def civilSecs (y m d h mi s : Int) : Int :=
  daysFromCivil y m d * 86400 + h * 3600 + mi * 60 + s

/-- Model of the libc `mktime` call at src/oracle_type_mapping.cpp:242:
`mktime` interprets the `tm` components as wall-clock time of the process
time zone and returns epoch seconds, i.e. it subtracts the zone's UTC offset
in effect at that local time.  The zone is the explicit environment parameter
`tzOffset`, mapping the local civil-seconds reading to the offset the zone
resolves for it (a fixed-offset zone is a constant function; a DST schedule
varies; the source leaves `tm_isdst = -1`, so `tzOffset` models the resolved
choice for ambiguous local times). -/
def mktimeModel (tzOffset : Int → Int) (y m d h mi s : Int) : Int :=
  let civil := civilSecs y m d h mi s
  civil - tzOffset civil

/-- The UTC process time zone (offset 0 everywhere). -/
def utcTZ : Int → Int := fun _ => 0

/-- A +09:00 process time zone (e.g. `TZ=Asia/Tokyo`, which observes no
DST): constant offset 32400 seconds. -/
def tokyoTZ : Int → Int := fun _ => 32400

/-- Host engine `Value` results of the cell conversion.  Constructors suffixed
`FromDouble` record the exact C++ conversion applied to the symbolic double
payload (float truncation, `(int64_t)`/`(int32_t)` casts, and the DECIMAL
rescale-and-round), without interpreting IEEE arithmetic. -/
inductive DuckValue where
  | typedNull (ty : LogicalType)
  | floatFromDouble (bits : Nat)
  | doubleV (bits : Nat)
  | decimalFromDouble (bits : Nat) (width scale : Int)
  | floatV (bits : Nat)
  | bigintV (v : Int)
  | integerV (v : Int)
  | smallintV (v : Int)
  | ubigintV (v : Nat)
  | bigintFromDouble (bits : Nat)
  | integerFromDouble (bits : Nat)
  | varcharV (s : String)
  | blobV (s : String)
  | timestampV (us : Int)
  | timestampTZV (us : Int)
  | intervalV (months days micros : Int)
  | booleanV (b : Bool)
  deriving DecidableEq, Repr

/-- `OracleTypeMapping::ToDuckDBValue` (src/oracle_type_mapping.cpp:182-298):
driver cell → host value.  Null cells and unhandled native types produce a
typed null of the target type.  `tzOffset` is the process time zone the
timestamp case's `mktime` call consults (see `mktimeModel`); no other case
reads it. -/
def ToDuckDBValue (tzOffset : Int → Int) (data : DpiData) (nativeType : Nat)
    (targetType : LogicalType) : DuckValue :=
  if data.isNull then .typedNull targetType
  else if nativeType = DPI_NATIVE_TYPE_DOUBLE then
    match targetType with
    | .float => .floatFromDouble data.value.asDouble
    | .double => .doubleV data.value.asDouble
    | .decimal w s => .decimalFromDouble data.value.asDouble w s
    | .bigint => .bigintFromDouble data.value.asDouble
    | .integer => .integerFromDouble data.value.asDouble
    | _ => .doubleV data.value.asDouble
  else if nativeType = DPI_NATIVE_TYPE_FLOAT then
    .floatV data.value.asFloat
  else if nativeType = DPI_NATIVE_TYPE_INT64 then
    match targetType with
    | .bigint => .bigintV data.value.asInt64
    | .integer => .integerV (toInt32 data.value.asInt64)
    | .smallint => .smallintV (toInt16 data.value.asInt64)
    | _ => .bigintV data.value.asInt64
  else if nativeType = DPI_NATIVE_TYPE_UINT64 then
    .ubigintV data.value.asUint64
  else if nativeType = DPI_NATIVE_TYPE_BYTES then
    if targetType = .blob then .blobV data.value.asBytes
    else .varcharV data.value.asBytes
  else if nativeType = DPI_NATIVE_TYPE_TIMESTAMP then
    let ts := data.value.asTimestamp
    let epoch := mktimeModel tzOffset ts.year ts.month ts.day ts.hour ts.minute ts.second
    let us : Int := epoch * 1000000 + (ts.fsecond / 1000 : Nat)
    if targetType = .timestampTZ then
      let tzOffsetSec := (ts.tzHourOffset * 60 + ts.tzMinuteOffset) * 60
      .timestampTZV (us - tzOffsetSec * 1000000)
    else .timestampV us
  else if nativeType = DPI_NATIVE_TYPE_INTERVAL_YM then
    .intervalV (data.value.asIntervalYM.years * 12 + data.value.asIntervalYM.months) 0 0
  else if nativeType = DPI_NATIVE_TYPE_INTERVAL_DS then
    let ids := data.value.asIntervalDS
    .intervalV 0 ids.days
      (ids.hours * 3600000000 + ids.minutes * 60000000 + ids.seconds * 1000000 +
        (ids.fseconds / 1000 : Nat))
  else if nativeType = DPI_NATIVE_TYPE_BOOLEAN then
    .booleanV (data.value.asBoolean ≠ 0)
  else if nativeType = DPI_NATIVE_TYPE_LOB then
    let lob := data.value.asLOB
    if lob.contents.length = 0 then
      if targetType = .blob then .blobV "" else .varcharV ""
    else
      if targetType = .blob then .blobV lob.contents else .varcharV lob.contents
  else .typedNull targetType

/-- The claim's prescribed instant for a timestamp cell: civil seconds of the
components times 10^6 plus `fsecond / 1000`, independent of any process
time zone. -/
def specTimestampMicros (ts : DpiTimestamp) : Int :=
  civilSecs ts.year ts.month ts.day ts.hour ts.minute ts.second * 1000000 +
    (ts.fsecond / 1000 : Nat)

/-- The scenario-S5 timestamp cell: `2024-01-01 00:00:00 +05:00`, whose
claimed TIMESTAMP_TZ instant is `2023-12-31T19:00:00Z` =
1704049200000000 µs. -/
def s5TimestampCell : DpiData :=
  ⟨false, { dpiZero with asTimestamp := ⟨2024, 1, 1, 0, 0, 0, 0, 5, 0⟩ }⟩

/-- C5: the conversion the source actually performs on a non-null timestamp
cell routes the components through `mktime`, so the produced instant is the
claimed `civilSecs * 10^6 + fsecond / 1000` (minus the cell's own tz offset
for TIMESTAMP_TZ) only shifted by the process time zone's UTC offset: the
general conjunct states the computation for every cell, target type and
zone; under UTC the S5 cell yields the claimed 1704049200000000 µs, but
under a +09:00 process zone the same cell yields an instant 32400 s earlier,
contradicting the claim's unconditional formula (and spec scenario S5). -/
theorem C5_timestamp_mktime_divergence :
    (∀ (tzOffset : Int → Int) (v : DpiDataValue) (target : LogicalType),
      ToDuckDBValue tzOffset ⟨false, v⟩ DPI_NATIVE_TYPE_TIMESTAMP target =
        (let ts := v.asTimestamp
         let base : Int :=
           mktimeModel tzOffset ts.year ts.month ts.day ts.hour ts.minute ts.second
             * 1000000 + (ts.fsecond / 1000 : Nat)
         if target = LogicalType.timestampTZ then
           DuckValue.timestampTZV
             (base - (ts.tzHourOffset * 60 + ts.tzMinuteOffset) * 60 * 1000000)
         else
           DuckValue.timestampV base)) ∧
    ToDuckDBValue utcTZ s5TimestampCell DPI_NATIVE_TYPE_TIMESTAMP
        LogicalType.timestampTZ =
      DuckValue.timestampTZV (specTimestampMicros s5TimestampCell.value.asTimestamp
        - 5 * 3600 * 1000000) ∧
    ToDuckDBValue utcTZ s5TimestampCell DPI_NATIVE_TYPE_TIMESTAMP
        LogicalType.timestampTZ =
      DuckValue.timestampTZV 1704049200000000 ∧
    ToDuckDBValue tokyoTZ s5TimestampCell DPI_NATIVE_TYPE_TIMESTAMP
        LogicalType.timestampTZ =
      DuckValue.timestampTZV (1704049200000000 - 32400 * 1000000) ∧
    ToDuckDBValue tokyoTZ s5TimestampCell DPI_NATIVE_TYPE_TIMESTAMP
        LogicalType.timestampTZ ≠
      DuckValue.timestampTZV 1704049200000000 := by
  refine ⟨?_, by decide, by decide, by decide, by decide⟩
  intro tzOffset v target
  cases target <;> rfl

/-- C6: `ToDuckDBValue` is a total function; in every process time zone, a
cell flagged null yields the typed null of the target type for every native
type number, and a non-null cell with a native type number outside the
handled set also yields the typed null of the target type. -/
theorem C6_null_and_unknown_cells (tzOffset : Int → Int) (v : DpiDataValue)
    (nt : Nat) (target : LogicalType) :
    ToDuckDBValue tzOffset ⟨true, v⟩ nt target = DuckValue.typedNull target ∧
    (nt ≠ DPI_NATIVE_TYPE_DOUBLE → nt ≠ DPI_NATIVE_TYPE_FLOAT →
     nt ≠ DPI_NATIVE_TYPE_INT64 → nt ≠ DPI_NATIVE_TYPE_UINT64 →
     nt ≠ DPI_NATIVE_TYPE_BYTES → nt ≠ DPI_NATIVE_TYPE_TIMESTAMP →
     nt ≠ DPI_NATIVE_TYPE_INTERVAL_YM → nt ≠ DPI_NATIVE_TYPE_INTERVAL_DS →
     nt ≠ DPI_NATIVE_TYPE_BOOLEAN → nt ≠ DPI_NATIVE_TYPE_LOB →
     ToDuckDBValue tzOffset ⟨false, v⟩ nt target = DuckValue.typedNull target) := by
  constructor
  · rfl
  · intro h1 h2 h3 h4 h5 h6 h7 h8 h9 h10
    unfold ToDuckDBValue
    simp only [Bool.false_eq_true, if_false, if_neg h1, if_neg h2, if_neg h3,
      if_neg h4, if_neg h5, if_neg h6, if_neg h7, if_neg h8, if_neg h9, if_neg h10]

/-- Concrete instance of `C6_null_and_unknown_cells`: under the UTC process
time zone, native type 3009 (`DPI_NATIVE_TYPE_OBJECT`) is outside the handled
set; both the null cell and the non-null cell of that type produce a typed
null. -/
theorem C6_null_and_unknown_cells_witness :
    ToDuckDBValue utcTZ ⟨true, dpiZero⟩ 3009 LogicalType.varchar =
      DuckValue.typedNull LogicalType.varchar ∧
    ToDuckDBValue utcTZ ⟨false, dpiZero⟩ 3009 LogicalType.varchar =
      DuckValue.typedNull LogicalType.varchar :=
  ⟨(C6_null_and_unknown_cells utcTZ dpiZero 3009 LogicalType.varchar).1,
   (C6_null_and_unknown_cells utcTZ dpiZero 3009 LogicalType.varchar).2
     (by decide) (by decide) (by decide) (by decide) (by decide)
     (by decide) (by decide) (by decide) (by decide) (by decide)⟩

/-- DuckDB's `STANDARD_VECTOR_SIZE` (default build configuration), the
executor's `CHUNK_SIZE` (src/oracle_connection.cpp:266). -/
def STANDARD_VECTOR_SIZE : Nat := 2048

/-- Fetch/deliver loop of `OracleConnection::ExecuteQuery`
(src/oracle_connection.cpp:260-297), abstracted over the already-converted row
values.  The second list argument is the chunk under construction (`chunk`
with `row_count` rows).  Returned is the list of chunks passed to the
callback, in call order: a full chunk is delivered and, when the callback
returns true, the chunk is reset and fetching continues with later
deliveries appended; when it returns false the loop breaks with `row_count`
still equal to `CHUNK_SIZE`, so the trailing `row_count > 0` flush block
delivers the same chunk once more; on fetch exhaustion a non-empty partial
chunk is flushed. -/
def fetchLoopDeliveries {α : Type} (cb : List α → Bool) (chunkSize : Nat) :
    List α → List α → List (List α)
  | [], chunk => if chunk.isEmpty then [] else [chunk]
  | r :: rest, chunk =>
    let chunk2 := chunk ++ [r]
    if chunk2.length = chunkSize then
      if cb chunk2 then chunk2 :: fetchLoopDeliveries cb chunkSize rest []
      else [chunk2, chunk2]
    else fetchLoopDeliveries cb chunkSize rest chunk2

/-- The chunks `ExecuteQuery` delivers to its callback for a given fetched row
sequence. -/
def ExecuteQueryDeliveries {α : Type} (rows : List α) (cb : List α → Bool) :
    List (List α) :=
  fetchLoopDeliveries cb STANDARD_VECTOR_SIZE rows []

theorem fetchLoopDeliveries_first_full_false {α : Type} (cb : List α → Bool)
    (chunkSize : Nat) :
    ∀ (xs chunk : List α), xs ≠ [] → chunk.length + xs.length = chunkSize →
      cb (chunk ++ xs) = false →
      fetchLoopDeliveries cb chunkSize xs chunk = [chunk ++ xs, chunk ++ xs] := by
  intro xs
  induction xs with
  | nil => intro chunk h _ _; exact absurd rfl h
  | cons r rest ih =>
    intro chunk _ hlen hcb
    by_cases hrest : rest = []
    · subst hrest
      have hfull : (chunk ++ [r]).length = chunkSize := by
        simp at hlen ⊢; omega
      simp only [fetchLoopDeliveries, if_pos hfull, hcb, Bool.false_eq_true,
        if_false]
    · have hpos : 0 < rest.length := List.length_pos.mpr hrest
      have hlt : (chunk ++ [r]).length ≠ chunkSize := by
        simp at hlen ⊢; omega
      simp only [fetchLoopDeliveries, if_neg hlt]
      have := ih (chunk ++ [r])
        hrest
        (by simp at hlen ⊢; omega)
        (by simpa using hcb)
      simpa using this

/-- C3: on a result set of exactly one full chunk (`STANDARD_VECTOR_SIZE`
rows) with a callback that refuses continuation on the first chunk, the
executor delivers the same chunk to the callback twice: the break after the
`false` return leaves `row_count` untouched, so the trailing partial-chunk
flush re-delivers it.  The specification's contract (deliver nothing further
after `false`) would demand the one-element delivery list. -/
theorem C3_delivery_after_false :
    ExecuteQueryDeliveries (List.replicate STANDARD_VECTOR_SIZE (0 : Nat))
        (fun _ => false) =
      [List.replicate STANDARD_VECTOR_SIZE 0,
       List.replicate STANDARD_VECTOR_SIZE 0] ∧
    (ExecuteQueryDeliveries (List.replicate STANDARD_VECTOR_SIZE (0 : Nat))
        (fun _ => false)).length = 2 := by
  have h := fetchLoopDeliveries_first_full_false
    (fun (_ : List Nat) => false) STANDARD_VECTOR_SIZE
    (List.replicate STANDARD_VECTOR_SIZE 0) []
    (List.ne_nil_of_length_pos
      (by rw [List.length_replicate]; norm_num [STANDARD_VECTOR_SIZE]))
    (by simp) rfl
  simp only [List.nil_append] at h
  exact ⟨h, by rw [ExecuteQueryDeliveries, h]; rfl⟩

/-- `OracleConnectionParameters` (src/include/oracle_utils.hpp:13-24) with its
field defaults. -/
structure OracleConnectionParameters where
  host : String
  port : Int
  service_name : String
  sid : String
  tns_name : String
  user : String
  password : String
  wallet_location : String
  schema : String
  read_only : Bool
  fetch_size : Int
  deriving DecidableEq, Repr

/-- The default-constructed connection parameters (host `localhost`, port
1521, fetch size 10000). -/
def defaultParams : OracleConnectionParameters :=
  ⟨"localhost", 1521, "", "", "", "", "", "", "", false, 10000⟩

/-- A pooled `OracleConnection`, identified by an open-order id (fresh ids
model `OracleConnection::Open` producing a brand-new connection) and carrying
the parameters it was opened with. -/
structure Connection where
  id : Nat
  params : OracleConnectionParameters
  deriving DecidableEq, Repr

/-- `OracleConnectionPool` state (src/include/oracle_connection.hpp:81-96):
open parameters, the retained-idle cap (`max_connections`, default 8), the
idle free list `pool_`, and the next fresh connection id. -/
structure PoolState where
  params : OracleConnectionParameters
  maxConnections : Nat
  pool : List Connection
  nextId : Nat
  deriving DecidableEq, Repr

/-- A freshly constructed pool (src/oracle_connection.cpp:401-403): empty free
list. -/
def mkPool (params : OracleConnectionParameters) (maxConnections : Nat) :
    PoolState :=
  ⟨params, maxConnections, [], 0⟩

/-- `OracleConnectionPool::Acquire` (src/oracle_connection.cpp:405-414): pop
the back of the free list if non-empty, otherwise open a new connection from
the stored parameters. -/
def poolAcquire (st : PoolState) : Connection × PoolState :=
  if h : st.pool ≠ [] then
    (st.pool.getLast h, { st with pool := st.pool.dropLast })
  else
    (⟨st.nextId, st.params⟩, { st with nextId := st.nextId + 1 })

/-- `OracleConnectionPool::Release` (src/oracle_connection.cpp:416-422):
append the connection when under the cap, else drop it. -/
def poolRelease (st : PoolState) (c : Connection) : PoolState :=
  if st.pool.length < st.maxConnections then { st with pool := st.pool ++ [c] }
  else st

/-- `OracleConnectionPool::ClearCache` (src/oracle_connection.cpp:424-427). -/
def poolClearCache (st : PoolState) : PoolState := { st with pool := [] }

/-- One serialized pool operation (the pool mutex serializes concurrent
callers). -/
inductive PoolOp where
  | acquire
  | release (c : Connection)
  | clearCache

/-- Effect of one pool operation on the pool state. -/
def poolStep (st : PoolState) : PoolOp → PoolState
  | .acquire => (poolAcquire st).2
  | .release c => poolRelease st c
  | .clearCache => poolClearCache st

/-- Pool state after a serialized operation sequence. -/
def poolRun (st : PoolState) (ops : List PoolOp) : PoolState :=
  ops.foldl poolStep st

theorem poolStep_max (st : PoolState) (op : PoolOp) :
    (poolStep st op).maxConnections = st.maxConnections := by
  cases op with
  | acquire =>
    simp only [poolStep, poolAcquire]
    by_cases hp : st.pool ≠ [] <;> simp [hp]
  | release c =>
    simp only [poolStep, poolRelease]
    by_cases hc : st.pool.length < st.maxConnections <;> simp [hc]
  | clearCache => rfl

theorem poolStep_len (st : PoolState) (op : PoolOp)
    (h : st.pool.length ≤ st.maxConnections) :
    (poolStep st op).pool.length ≤ st.maxConnections := by
  cases op with
  | acquire =>
    simp only [poolStep, poolAcquire]
    by_cases hp : st.pool ≠ [] <;> simp [hp] <;> omega
  | release c =>
    simp only [poolStep, poolRelease]
    by_cases hc : st.pool.length < st.maxConnections <;> simp [hc] <;> omega
  | clearCache => simp [poolStep, poolClearCache]

theorem poolRun_max (ops : List PoolOp) :
    ∀ st : PoolState, (poolRun st ops).maxConnections = st.maxConnections := by
  induction ops with
  | nil => intro st; rfl
  | cons op rest ih =>
    intro st
    have h1 : poolRun st (op :: rest) = poolRun (poolStep st op) rest := rfl
    rw [h1, ih, poolStep_max]

theorem poolRun_invariant (ops : List PoolOp) :
    ∀ st : PoolState, st.pool.length ≤ st.maxConnections →
      (poolRun st ops).pool.length ≤ st.maxConnections := by
  induction ops with
  | nil => intro st h; simpa [poolRun]
  | cons op rest ih =>
    intro st h
    have h1 : poolRun st (op :: rest) = poolRun (poolStep st op) rest := rfl
    rw [h1]
    have hlen : (poolStep st op).pool.length ≤ (poolStep st op).maxConnections := by
      rw [poolStep_max]; exact poolStep_len st op h
    have h2 := ih (poolStep st op) hlen
    rw [poolStep_max] at h2
    exact h2

/-- C7: under every serialized sequence of `Acquire`/`Release`/`ClearCache`
operations starting from a fresh pool, the idle free list never exceeds the
configured cap; `Acquire` pops an idle connection when one exists and opens a
fresh one otherwise (leaving the list empty), `Release` appends only below
the cap and drops otherwise, and `ClearCache` empties the list. -/
theorem C7_pool_cap_invariant :
    (∀ (params : OracleConnectionParameters) (cap : Nat) (ops : List PoolOp),
      (poolRun (mkPool params cap) ops).pool.length ≤ cap) ∧
    (∀ st : PoolState, st.pool ≠ [] →
      (poolAcquire st).1 ∈ st.pool ∧
      (poolAcquire st).2.pool.length + 1 = st.pool.length) ∧
    (∀ st : PoolState, st.pool = [] →
      (poolAcquire st).1 = ⟨st.nextId, st.params⟩ ∧
      (poolAcquire st).2.pool = []) ∧
    (∀ (st : PoolState) (c : Connection), st.pool.length < st.maxConnections →
      (poolRelease st c).pool = st.pool ++ [c]) ∧
    (∀ (st : PoolState) (c : Connection),
      ¬st.pool.length < st.maxConnections → (poolRelease st c).pool = st.pool) ∧
    (∀ st : PoolState, (poolClearCache st).pool = []) := by
  refine ⟨?_, ?_, ?_, ?_, ?_, ?_⟩
  · intro params cap ops
    have h := poolRun_invariant ops (mkPool params cap) (by simp [mkPool])
    simpa [mkPool] using h
  · intro st h
    simp only [poolAcquire, dif_pos h]
    exact ⟨List.getLast_mem h, by simp [List.length_dropLast,
      Nat.sub_add_cancel (List.length_pos.mpr h)]⟩
  · intro st h
    have : ¬st.pool ≠ [] := by simpa using h
    simp [poolAcquire, this, h]
  · intro st c h; simp [poolRelease, h]
  · intro st c h; simp [poolRelease, h]
  · intro st; rfl

/-- A pool holding one idle connection. -/
def poolOneIdle : PoolState := ⟨defaultParams, 8, [⟨0, defaultParams⟩], 1⟩

/-- A fresh pool with the default cap 8. -/
def poolEmpty : PoolState := mkPool defaultParams 8

/-- A pool whose free list is at its cap. -/
def poolAtCap : PoolState := ⟨defaultParams, 1, [⟨0, defaultParams⟩], 1⟩

/-- Concrete instance of `C7_pool_cap_invariant`: an acquire/release/clear
sequence from a fresh default pool respects the cap, and each per-operation
description holds on a one-idle pool, a fresh pool, and an at-cap pool. -/
theorem C7_pool_cap_invariant_witness :
    (poolRun (mkPool defaultParams 8)
      [PoolOp.acquire, PoolOp.release ⟨5, defaultParams⟩,
       PoolOp.clearCache]).pool.length ≤ 8 ∧
    ((poolAcquire poolOneIdle).1 ∈ poolOneIdle.pool ∧
      (poolAcquire poolOneIdle).2.pool.length + 1 = poolOneIdle.pool.length) ∧
    ((poolAcquire poolEmpty).1 = ⟨poolEmpty.nextId, poolEmpty.params⟩ ∧
      (poolAcquire poolEmpty).2.pool = []) ∧
    (poolRelease poolEmpty ⟨7, defaultParams⟩).pool =
      poolEmpty.pool ++ [⟨7, defaultParams⟩] ∧
    (poolRelease poolAtCap ⟨7, defaultParams⟩).pool = poolAtCap.pool ∧
    (poolClearCache poolOneIdle).pool = [] :=
  ⟨C7_pool_cap_invariant.1 defaultParams 8
     [PoolOp.acquire, PoolOp.release ⟨5, defaultParams⟩, PoolOp.clearCache],
   C7_pool_cap_invariant.2.1 poolOneIdle (by decide),
   C7_pool_cap_invariant.2.2.1 poolEmpty (by decide),
   C7_pool_cap_invariant.2.2.2.1 poolEmpty ⟨7, defaultParams⟩ (by decide),
   C7_pool_cap_invariant.2.2.2.2.1 poolAtCap ⟨7, defaultParams⟩ (by decide),
   C7_pool_cap_invariant.2.2.2.2.2 poolOneIdle⟩

/-- The pool interaction of `OracleScan::Scan` at src/oracle_scan.cpp:161-162:
the fetch size passed to `ExecuteQuery` is
`bind_data.pool->Acquire()->GetParams().fetch_size`, i.e. it is read from a
connection freshly acquired from the pool inside the scan; the temporary
`shared_ptr` is dropped at the end of the expression, so the connection is
neither used nor returned to the pool.  Returns the fetch size used and the
pool state after the call. -/
def scanFetchSizeFromPool (pool : PoolState) : Int × PoolState :=
  let r := poolAcquire pool
  (r.1.params.fetch_size, r.2)

/-- C8 (refuted): a `Scan` call does acquire a fresh connection from the pool
— on a pool holding one idle connection, reading the fetch size pops that
connection (which is then dropped, not released), leaving the pool empty, so
the pool state is changed by the call; the fetch size comes from the acquired
connection's parameters, and the bind data
(src/include/oracle_scan.hpp:13-38) has no fetch-size field at all. -/
theorem C8_scan_pops_pool :
    (scanFetchSizeFromPool poolOneIdle).2 ≠ poolOneIdle ∧
    (scanFetchSizeFromPool poolOneIdle).2.pool = [] ∧
    poolOneIdle.pool.length = 1 ∧
    (scanFetchSizeFromPool poolOneIdle).1 = defaultParams.fetch_size := by
  refine ⟨by decide, by decide, by decide, by decide⟩

/-- Strings with equal character data are equal. -/
theorem str_eq_of_data (x y : String) (h : x.data = y.data) : x = y := by
  cases x; cases y; simp only at h; rw [h]

/-- `OracleUtils::ToUpper` of one byte (src/oracle_utils.cpp:21-26):
`std::toupper` in the default C locale maps only `a`-`z`. -/
def toUpperChar (c : Char) : Char :=
  if c ≥ Char.ofNat 97 ∧ c ≤ Char.ofNat 122 then Char.ofNat (c.toNat - 32) else c

/-- `OracleUtils::ToUpper` (src/oracle_utils.cpp:21-26). -/
def ToUpper (s : String) : String := String.mk (s.data.map toUpperChar)

/-- The dictionary SQL text `OracleConnection::GetColumns` builds and issues
(src/oracle_connection.cpp:141-147): the upper-cased schema and table are
interpolated into the statement as single-quoted literals. -/
def buildColumnsSQL (schema table : String) : String :=
  "SELECT COLUMN_NAME, DATA_TYPE, DATA_PRECISION, DATA_SCALE, " ++
  "       CHAR_LENGTH, NULLABLE " ++
  "FROM ALL_TAB_COLUMNS " ++
  ("WHERE OWNER = " ++ squote) ++ ToUpper schema ++ (squote ++ " ") ++
  ("  AND TABLE_NAME = " ++ squote) ++ ToUpper table ++ (squote ++ " ") ++
  "ORDER BY COLUMN_ID"

/-- One fetched `ALL_TAB_COLUMNS` row as `GetColumns` reads it
(src/oracle_connection.cpp:157-187).  The numeric dictionary cells are the
delivered value or SQL NULL (`none`); dictionary numbers are small integers,
for which the source's `(int32_t)asDouble` read is the integer itself. -/
structure RawColumnRow where
  columnName : String
  dataType : String
  precision : Option Int
  scale : Option Int
  charLength : Option Int
  nullable : String
  deriving DecidableEq, Repr

/-- Per-row mapping of `GetColumns` (src/oracle_connection.cpp:160-187):
missing precision becomes 0, missing scale −127, missing char length 0, and
the nullable flag is the comparison with `Y`. -/
def mkColumnInfo (row : RawColumnRow) : OracleColumnInfo :=
  ⟨row.columnName, row.dataType,
   match row.precision with | none => 0 | some v => v,
   match row.scale with | none => -127 | some v => v,
   match row.charLength with | none => 0 | some v => v,
   row.nullable == "Y"⟩

/-- `OracleConnection::GetColumns` (src/oracle_connection.cpp:135-192) as a
function of the rows the server returns: the issued SQL text and the mapped
column list (an empty result maps to an empty list, no error path exists for
it). -/
def GetColumnsModel (schema table : String) (rows : List RawColumnRow) :
    String × List OracleColumnInfo :=
  (buildColumnsSQL schema table, rows.map mkColumnInfo)

set_option maxRecDepth 40000 in
/-- C9 (refuted as stated): the query `GetColumns` issues for schema `hr` and
table `employees` is not the claimed bind-variable statement; it contains
neither `:schema` nor `:table`, and instead embeds the upper-cased
identifiers as single-quoted literals. -/
theorem C9_no_bind_variables :
    buildColumnsSQL "hr" "employees" ≠
      "SELECT COLUMN_NAME, DATA_TYPE, DATA_PRECISION, DATA_SCALE, CHAR_LENGTH, NULLABLE FROM ALL_TAB_COLUMNS WHERE OWNER = :schema AND TABLE_NAME = :table ORDER BY COLUMN_ID" ∧
    ¬ (":schema".data <:+: (buildColumnsSQL "hr" "employees").data) ∧
    ¬ (":table".data <:+: (buildColumnsSQL "hr" "employees").data) ∧
    ((squote ++ "HR" ++ squote).data <:+: (buildColumnsSQL "hr" "employees").data) ∧
    ((squote ++ "EMPLOYEES" ++ squote).data <:+: (buildColumnsSQL "hr" "employees").data) := by
  refine ⟨by decide, by decide, by decide, by decide, by decide⟩

/-- C9 (amended): `GetColumns` issues the `ALL_TAB_COLUMNS` dictionary query
selecting COLUMN_NAME, DATA_TYPE, DATA_PRECISION, DATA_SCALE, CHAR_LENGTH and
NULLABLE ordered by COLUMN_ID, with the schema and table upper-cased and
interpolated as single-quoted literals (not bind variables); each returned
row maps missing precision to 0, missing scale to −127, and
`nullable = (NULLABLE == Y)`; an empty result set yields an empty column
list, not an error. -/
theorem C9_columns_query :
    (∀ schema table : String, buildColumnsSQL schema table =
      "SELECT COLUMN_NAME, DATA_TYPE, DATA_PRECISION, DATA_SCALE,        CHAR_LENGTH, NULLABLE FROM ALL_TAB_COLUMNS WHERE OWNER = \x27" ++
        ToUpper schema ++ "\x27   AND TABLE_NAME = \x27" ++ ToUpper table ++
        "\x27 ORDER BY COLUMN_ID") ∧
    (∀ row : RawColumnRow,
      (mkColumnInfo row).name = row.columnName ∧
      (mkColumnInfo row).oracle_type_name = row.dataType ∧
      (mkColumnInfo row).precision = row.precision.getD 0 ∧
      (mkColumnInfo row).scale = row.scale.getD (-127) ∧
      (mkColumnInfo row).char_length = row.charLength.getD 0 ∧
      (mkColumnInfo row).nullable = (row.nullable == "Y")) ∧
    (∀ schema table : String,
      (GetColumnsModel schema table []).2 = ([] : List OracleColumnInfo)) ∧
    (∀ (schema table : String) (rows : List RawColumnRow),
      (GetColumnsModel schema table rows).2 = rows.map mkColumnInfo) := by
  refine ⟨?_, ?_, fun _ _ => rfl, fun _ _ _ => rfl⟩
  · intro schema table
    apply str_eq_of_data
    simp [buildColumnsSQL, squote, String.data_append]
  · intro row
    refine ⟨rfl, rfl, ?_, ?_, ?_, rfl⟩
    · cases hp : row.precision <;> simp [mkColumnInfo, hp]
    · cases hs : row.scale <;> simp [mkColumnInfo, hs]
    · cases hc : row.charLength <;> simp [mkColumnInfo, hc]

end DuckdbOracle
